import Mathlib

/-!
Verification of the credential-lifecycle core of the `web-implict` demo
(`src/web-implict/src/main.ts`).  The component `AuthDemo` keeps four
reactive fields (`_files`, `_accessToken`, `_tokenExpiresAt`, `_error`),
obtains a bearer token through the Google Identity Services popup flow
(`_requestAuthorization`), lists Drive files with it (`fetchFileList`,
driven by `_run`) and revokes it (`_revoke`).  We embed those functions
shallowly: the provider and the HTTP endpoint are environment inputs,
times are naturals (milliseconds), and the settlement of each promise is
made explicit.
-/

namespace AuthDemo

/-- One entry of the JSON body's `files` collection; the template only
reads its `name`. -/
structure FileSummary where
  name : String
deriving DecidableEq, Repr

/-- The component's reactive state.  `files` mirrors `_files` — an
`Option` because `body.files` of a malformed response is `undefined`
(`none`) and is stored as-is; `accessToken` mirrors `_accessToken`
(`null` = `none`); `tokenExpiresAt` and `error` mirror the fields of the
same names. -/
structure AuthState where
  files : Option (List FileSummary)
  accessToken : Option String
  tokenExpiresAt : Nat
  error : Option String
deriving DecidableEq, Repr

/-- The constructor's field initialisation: empty list, no token,
sentinel expiry 0, no error. -/
def initState : AuthState :=
  { files := some [], accessToken := none, tokenExpiresAt := 0, error := none }

/-- A response passed to the token client's `callback`.  JavaScript
truthiness of `response.access_token` is captured by `access_token ≠ ""`
(absent and empty are both falsy); `scopeGranted` is the value of
`hasGrantedAnyScope(response, scope)`. -/
structure TokenResponse where
  access_token : String
  expires_in : Nat
  scopeGranted : Bool
deriving DecidableEq, Repr

/-- How one authorization attempt comes back from the provider: either
the `callback` fires (possibly with a null/undefined response, hence the
`Option`) or the `error_callback` fires with an error whose `type` field
is the given string. -/
inductive ProviderOutcome where
  | callback (response : Option TokenResponse)
  | errorCb (errType : String)
deriving DecidableEq, Repr

/-- Settlement status of the promise returned by
`_requestAuthorization`. -/
inductive PromiseStatus where
  | pending
  | resolved (token : String)
  | rejected (errType : String)
deriving DecidableEq, Repr

/-- The guard of the grant branch in the token client's `callback`:
`response && response.access_token && hasGrantedAnyScope(response, scope)`. -/
def grantOk : Option TokenResponse → Bool
  | none => false
  | some r => r.access_token ≠ "" && r.scopeGranted

/-- The body of `_requestAuthorization`'s callbacks, run when the
provider completes the attempt at time `now` with outcome `out` over
state `s`: returns the updated state and what the promise did.  The
grant branch clears `_error`, stores the token, sets
`_tokenExpiresAt = Date.now() + expires_in * 1000` and resolves; the
non-grant `callback` branch only sets `_error` (neither `resolve` nor
`reject` is called); the `error_callback` sets a message depending on
`err.type` and rejects. -/
def requestAuthorizationCallback (now : Nat) (s : AuthState)
    (out : ProviderOutcome) : AuthState × PromiseStatus :=
  match out with
  | .callback response =>
    match response with
    | some r =>
      if grantOk (some r) then
        ({ s with error := none,
                  accessToken := some r.access_token,
                  tokenExpiresAt := now + r.expires_in * 1000 },
         .resolved r.access_token)
      else
        ({ s with error := some "Authorization required." }, .pending)
    | none =>
        ({ s with error := some "Authorization required." }, .pending)
  | .errorCb t =>
    if t = "popup_closed" then
      ({ s with error := some "Authorization required" }, .rejected t)
    else
      ({ s with error := some "An unexpected error occurred" }, .rejected t)

/-- The completion callback passed to `google.accounts.oauth2.revoke`:
`this._files = []` and `this._accessToken = null`; `_tokenExpiresAt` and
`_error` are not touched. -/
def revokeCallback (s : AuthState) : AuthState :=
  { s with files := some [], accessToken := none }

/-- The HTTP response to the Drive listing request: its status and the
parsed body's `files` collection (`none` when absent or malformed). -/
structure HttpResponse where
  status : Nat
  files : Option (List FileSummary)
deriving DecidableEq, Repr

/-- Result of `fetchFileList`: the returned `body.files` value (which
may be the undefined `none`) or the thrown error's message. -/
inductive FetchResult where
  | ok (files : Option (List FileSummary))
  | err (msg : String)
deriving DecidableEq, Repr

/-- The outcome classification of `fetchFileList` applied to the
response `res`: `res.status >= 400` throws `Error('Unable to fetch
files')`, otherwise `body.files` is returned. -/
def fetchFileList (res : HttpResponse) : FetchResult :=
  if res.status ≥ 400 then .err "Unable to fetch files"
  else .ok res.files

/-- The expression `this._files.map(file => file.name)` used by
`filesTemplate` to render the names, in the stored order. -/
def fileNames (l : List FileSummary) : List String :=
  l.map FileSummary.name

/-- The access `this._files.length` performed by `filesTemplate`:
reading `length` of `undefined` is a TypeError, hence no value. -/
def filesLength : Option (List FileSummary) → Option Nat
  | none => none
  | some l => some l.length

/-- The condition of `_run`'s first line,
`!this._accessToken || this._tokenExpiresAt < Date.now()`: a fresh
authorization round-trip is performed exactly when it holds.  (Stored
tokens come from the grant branch, which guarantees them non-empty, so
JavaScript truthiness of `_accessToken` coincides with `isSome`.) -/
def needsAuth (s : AuthState) (now : Nat) : Bool :=
  s.accessToken.isNone || s.tokenExpiresAt < now

/-- How one complete execution of `_run` ended: the returned promise
resolved, rejected with the given message or error type, or is pending
forever because the authorization promise it awaits never settles. -/
inductive RunOutcome where
  | completed
  | threw (msg : String)
  | pendingForever
deriving DecidableEq, Repr

/-- Everything observable about one execution of `_run`: the final
component state, whether a provider round-trip (popup) was started,
whether `fetchFileList` was reached, and how the run ended. -/
structure RunTrace where
  finalState : AuthState
  authStarted : Bool
  listingCalled : Bool
  runOutcome : RunOutcome
deriving DecidableEq, Repr

/-- The tail of `_run`: `this._files = await fetchFileList(...)`.  A
successful fetch stores `body.files` into `_files`; a thrown error
skips the assignment and rejects the run. -/
def finishFetch (s : AuthState) (res : HttpResponse) : AuthState × RunOutcome :=
  match fetchFileList res with
  | .ok fs => ({ s with files := fs }, .completed)
  | .err msg => (s, .threw msg)

/-- One complete execution of `_run` triggered at time `now` over state
`s`, where — if an authorization is needed — the provider completes the
attempt at time `authNow` with outcome `out`, and — if the listing call
is reached — the endpoint answers `res`.  Mirrors the two lines of
`_run`: the conditional `await this._requestAuthorization()` and the
assignment from `fetchFileList`. -/
def run (s : AuthState) (now : Nat) (out : ProviderOutcome) (authNow : Nat)
    (res : HttpResponse) : RunTrace :=
  if needsAuth s now then
    let r := requestAuthorizationCallback authNow s out
    match r.2 with
    | .resolved _ =>
        let f := finishFetch r.1 res
        { finalState := f.1, authStarted := true, listingCalled := true,
          runOutcome := f.2 }
    | .rejected e =>
        { finalState := r.1, authStarted := true, listingCalled := false,
          runOutcome := .threw e }
    | .pending =>
        { finalState := r.1, authStarted := true, listingCalled := false,
          runOutcome := .pendingForever }
  else
    let f := finishFetch s res
    { finalState := f.1, authStarted := false, listingCalled := true,
      runOutcome := f.2 }

/-- Events of the interleaved model.  `fetch` is the synchronous prefix
of `_run` (the expiry check, and `initTokenClient().requestAccessToken()`
when a round-trip is needed); `authDone` is the provider completing one
in-flight attempt; `listDone` is the endpoint answering one in-flight
listing request; `revoke` is the synchronous prefix of `_revoke`;
`revokeDone` is the provider's revoke completion callback. -/
inductive Ev where
  | fetch (now : Nat)
  | authDone (now : Nat) (out : ProviderOutcome)
  | listDone (res : HttpResponse)
  | revoke
  | revokeDone
deriving DecidableEq, Repr

/-- A configuration of the interleaved model: the component state plus
the in-flight operations.  `popups` counts provider round-trips started
so far; `revokeCalls` records the tokens passed to the provider's
revoke capability, in order. -/
structure Config where
  state : AuthState
  inflightAuth : Nat
  popups : Nat
  inflightList : Nat
  inflightRevoke : Nat
  revokeCalls : List String
deriving DecidableEq, Repr

/-- The initial configuration: constructor state, nothing in flight. -/
def initConfig : Config :=
  { state := initState, inflightAuth := 0, popups := 0, inflightList := 0,
    inflightRevoke := 0, revokeCalls := [] }

/-- One step of the interleaved model.  A `fetch` trigger consults
`needsAuth` against the current state and either opens a popup
(`_requestAuthorization` creates a client and calls
`requestAccessToken` unconditionally — there is no in-flight guard) or
goes straight to the listing call; `authDone` runs
`requestAuthorizationCallback`, and on resolution the awaiting `_run`
resumes with the listing call; `listDone` runs the `_files` assignment
or skips it on a thrown error; `revoke` passes the current token to the
provider when one is stored and is a no-op otherwise; `revokeDone` runs
`revokeCallback`. -/
def step (c : Config) (e : Ev) : Config :=
  match e with
  | .fetch now =>
      if needsAuth c.state now then
        { c with inflightAuth := c.inflightAuth + 1, popups := c.popups + 1 }
      else
        { c with inflightList := c.inflightList + 1 }
  | .authDone now out =>
      if c.inflightAuth = 0 then c
      else
        let r := requestAuthorizationCallback now c.state out
        match r.2 with
        | .resolved _ =>
            { c with state := r.1, inflightAuth := c.inflightAuth - 1,
                     inflightList := c.inflightList + 1 }
        | _ =>
            { c with state := r.1, inflightAuth := c.inflightAuth - 1 }
  | .listDone res =>
      if c.inflightList = 0 then c
      else
        match fetchFileList res with
        | .ok fs =>
            { c with state := { c.state with files := fs },
                     inflightList := c.inflightList - 1 }
        | .err _ =>
            { c with inflightList := c.inflightList - 1 }
  | .revoke =>
      match c.state.accessToken with
      | none => c
      | some tok =>
          { c with inflightRevoke := c.inflightRevoke + 1,
                   revokeCalls := c.revokeCalls ++ [tok] }
  | .revokeDone =>
      if c.inflightRevoke = 0 then c
      else
        { c with state := revokeCallback c.state,
                 inflightRevoke := c.inflightRevoke - 1 }

/-- Run the interleaved model over a list of events. -/
def steps (c : Config) (es : List Ev) : Config :=
  es.foldl step c

/-- Whether a provider outcome is a denial: a `callback` whose response
fails the grant guard, or any `error_callback`. -/
def deniedOutcome : ProviderOutcome → Bool
  | .callback response => !grantOk response
  | .errorCb _ => true

/-- The user-facing message the code writes to `_error` for each denial
reason. -/
def deniedMessage : ProviderOutcome → String
  | .callback _ => "Authorization required."
  | .errorCb t =>
      if t = "popup_closed" then "Authorization required"
      else "An unexpected error occurred"

/-- The pairing property of the spec, forward direction: a present token
comes with a non-sentinel (non-zero) expiry. -/
def tokenExpiryInv (s : AuthState) : Prop :=
  s.accessToken.isSome = true → s.tokenExpiresAt ≠ 0

/-- An event carries a positive clock reading (the real `Date.now()` is
always positive); trivially true for events without one. -/
def evTimePos : Ev → Bool
  | .authDone now _ => 0 < now
  | _ => true

/-- Sample state holding a stored, still-valid token expiring at 100. -/
def cachedState : AuthState :=
  { files := some [], accessToken := some "T", tokenExpiresAt := 100, error := none }

/-- Sample state holding a stored but already expired token. -/
def staleState : AuthState :=
  { files := some [], accessToken := some "OLD", tokenExpiresAt := 5, error := none }

/-- A fetch trigger at time 5 followed by a full grant of token `"T"`
for 3600 seconds at time 10. -/
def grantedTrace : List Ev :=
  [.fetch 5,
   .authDone 10 (.callback (some { access_token := "T", expires_in := 3600,
                                   scopeGranted := true }))]

/-! Helper lemmas shared by several claims. -/

theorem rac_files_eq (now : Nat) (s : AuthState) (out : ProviderOutcome) :
    (requestAuthorizationCallback now s out).1.files = s.files := by
  cases out with
  | callback response =>
      cases response with
      | none => rfl
      | some r =>
          by_cases hg : grantOk (some r) = true <;>
            simp [requestAuthorizationCallback, hg]
  | errorCb t =>
      by_cases ht : t = "popup_closed" <;>
        simp [requestAuthorizationCallback, ht]

theorem rac_cred_cases (now : Nat) (s : AuthState) (out : ProviderOutcome) :
    ((requestAuthorizationCallback now s out).1.accessToken = s.accessToken ∧
      (requestAuthorizationCallback now s out).1.tokenExpiresAt = s.tokenExpiresAt) ∨
    ∃ r : TokenResponse,
      (requestAuthorizationCallback now s out).1.accessToken = some r.access_token ∧
      (requestAuthorizationCallback now s out).1.tokenExpiresAt = now + r.expires_in * 1000 := by
  cases out with
  | callback response =>
      cases response with
      | none => exact Or.inl ⟨rfl, rfl⟩
      | some r =>
          by_cases hg : grantOk (some r) = true
          · exact Or.inr ⟨r, by simp [requestAuthorizationCallback, hg]⟩
          · exact Or.inl (by constructor <;> simp [requestAuthorizationCallback, hg])
  | errorCb t =>
      refine Or.inl ?_
      by_cases ht : t = "popup_closed" <;>
        constructor <;> simp [requestAuthorizationCallback, ht]

theorem finishFetch_files_of_failed (s : AuthState) (res : HttpResponse)
    (h : (finishFetch s res).2 ≠ RunOutcome.completed) :
    (finishFetch s res).1.files = s.files := by
  unfold finishFetch at h ⊢
  cases hf : fetchFileList res with
  | ok fs => rw [hf] at h; exact absurd rfl h
  | err m => rfl

theorem run_authStarted_of_needsAuth (s : AuthState) (now authNow : Nat)
    (out : ProviderOutcome) (res : HttpResponse) (hn : needsAuth s now = true) :
    (run s now out authNow res).authStarted = true := by
  simp only [run, hn, if_true]
  split <;> rfl

theorem step_authDone_state (c : Config) (now : Nat) (out : ProviderOutcome) :
    (step c (.authDone now out)).state = c.state ∨
    (step c (.authDone now out)).state
      = (requestAuthorizationCallback now c.state out).1 := by
  by_cases h0 : c.inflightAuth = 0
  · exact Or.inl (by simp [step, h0])
  · refine Or.inr ?_
    simp only [step]
    rw [if_neg h0]
    split <;> rfl

theorem step_preserves_tokenExpiryInv (c : Config) (e : Ev)
    (hpos : evTimePos e = true) (hc : tokenExpiryInv c.state) :
    tokenExpiryInv (step c e).state := by
  cases e with
  | fetch now =>
      by_cases hn : needsAuth c.state now = true <;> simp [step, hn] <;> exact hc
  | authDone now out =>
      have hnow : 0 < now := by simpa [evTimePos] using hpos
      rcases step_authDone_state c now out with hs | hs
      · rw [hs]; exact hc
      · rw [hs]
        rcases rac_cred_cases now c.state out with ⟨ha, he⟩ | ⟨r, ha, he⟩
        · intro hsome
          rw [he]
          exact hc (ha ▸ hsome)
        · intro _
          rw [he]
          omega
  | listDone res =>
      by_cases h0 : c.inflightList = 0
      · simpa [step, h0] using hc
      · simp only [step]
        rw [if_neg h0]
        cases hf : fetchFileList res with
        | ok fs => exact hc
        | err m => exact hc
  | revoke =>
      cases h : c.state.accessToken with
      | none => simpa [step, h] using hc
      | some tok => simpa [step, h] using hc
  | revokeDone =>
      by_cases h0 : c.inflightRevoke = 0
      · simpa [step, h0] using hc
      · simp only [step]
        rw [if_neg h0]
        intro hsome
        simp [revokeCallback] at hsome

/-! Claims. -/

/-- C6 (counterexample): the listing call does not distinguish an
authentication failure from a server failure — HTTP 401 and HTTP 500
both throw the same single error, so no Err(unauthorized) distinct from
Err(server-error) exists. -/
theorem fetch_401_500_same_error :
    fetchFileList { status := 401, files := none } =
      fetchFileList { status := 500, files := none } ∧
    fetchFileList { status := 401, files := none } = .err "Unable to fetch files" :=
  ⟨rfl, rfl⟩

/-- C6 (amended): every response with status at least 400 throws the
same single error, with no 401/403 special case; any response with
status below 400 yields the body file collection unchanged, in the
given order. -/
theorem fetchFileList_classification (res : HttpResponse) :
    (400 ≤ res.status → fetchFileList res = .err "Unable to fetch files") ∧
    (res.status < 400 → fetchFileList res = .ok res.files) := by
  constructor
  · intro h
    simp [fetchFileList, h]
  · intro h
    simp [fetchFileList, Nat.not_le.mpr h]

/-- C6 (witness): instances of the classification at statuses 401, 500
and 200. -/
theorem fetchFileList_classification_witness :
    fetchFileList { status := 401, files := none } = .err "Unable to fetch files" ∧
    fetchFileList { status := 500, files := some [] } = .err "Unable to fetch files" ∧
    fetchFileList { status := 200, files := some [{ name := "a" }, { name := "b" }] } =
      .ok (some [{ name := "a" }, { name := "b" }]) :=
  ⟨(fetchFileList_classification _).1 (by decide),
   (fetchFileList_classification _).1 (by decide),
   (fetchFileList_classification _).2 (by decide)⟩

/-- C7 (counterexample): a 200 response whose body has no `files`
collection makes `fetchFileList` return the undefined value itself, and
a run over a valid cached token completes and stores it into `_files` —
no Err(server-error) is produced. -/
theorem malformed_body_stored :
    fetchFileList { status := 200, files := none } = .ok none ∧
    (run cachedState 50 (.errorCb "x") 0
        { status := 200, files := none }).finalState.files = none ∧
    (run cachedState 50 (.errorCb "x") 0
        { status := 200, files := none }).runOutcome = .completed :=
  ⟨rfl, rfl, rfl⟩

/-- C7 (amended): for every successful (status below 400) listing
response with an absent or malformed file collection, `fetchFileList`
returns the absent value, a cached-token run completes and stores it
into the file-list state, and the render-time length access on that
state has no value (a TypeError), rather than an Err(server-error). -/
theorem malformed_body_propagates (s : AuthState) (now authNow : Nat)
    (out : ProviderOutcome) (res : HttpResponse)
    (h1 : res.status < 400) (h2 : res.files = none)
    (h3 : needsAuth s now = false) :
    fetchFileList res = .ok none ∧
    (run s now out authNow res).finalState.files = none ∧
    (run s now out authNow res).runOutcome = .completed ∧
    filesLength (run s now out authNow res).finalState.files = none := by
  have hf : fetchFileList res = .ok none := by
    simp [fetchFileList, Nat.not_le.mpr h1, h2]
  refine ⟨hf, ?_, ?_, ?_⟩ <;> simp [run, h3, finishFetch, hf, filesLength]

/-- C7 (witness): the amended statement at a 200 response without a
file collection, over the sample cached state. -/
theorem malformed_body_propagates_witness :
    (run cachedState 50 (.errorCb "x") 0
        { status := 200, files := none }).runOutcome = .completed ∧
    filesLength (run cachedState 50 (.errorCb "x") 0
        { status := 200, files := none }).finalState.files = none :=
  ⟨(malformed_body_propagates cachedState 50 0 (.errorCb "x")
      { status := 200, files := none } (by decide) rfl (by decide)).2.2.1,
   (malformed_body_propagates cachedState 50 0 (.errorCb "x")
      { status := 200, files := none } (by decide) rfl (by decide)).2.2.2⟩

/-- C10: every run of `_run` that does not complete — the
authorization rejected, its promise hung, or `fetchFileList` threw —
leaves the stored file list exactly as it was. -/
theorem failed_run_preserves_files (s : AuthState) (now authNow : Nat)
    (out : ProviderOutcome) (res : HttpResponse)
    (h : (run s now out authNow res).runOutcome ≠ RunOutcome.completed) :
    (run s now out authNow res).finalState.files = s.files := by
  by_cases hn : needsAuth s now = true
  · simp only [run, hn, if_true] at h ⊢
    cases hr : (requestAuthorizationCallback authNow s out).2 with
    | pending => simp only [hr] at h ⊢; exact rac_files_eq authNow s out
    | resolved tok =>
        simp only [hr] at h ⊢
        exact (finishFetch_files_of_failed _ res h).trans (rac_files_eq authNow s out)
    | rejected e => simp only [hr] at h ⊢; exact rac_files_eq authNow s out
  · simp only [run, hn, if_false, Bool.false_eq_true] at h ⊢
    exact finishFetch_files_of_failed s res h

/-- C10 (witness): a run whose authorization is cancelled by closing
the popup does not complete and keeps the initial empty list. -/
theorem failed_run_preserves_files_witness :
    (run initState 5 (.errorCb "popup_closed") 6
        { status := 500, files := none }).runOutcome ≠ RunOutcome.completed ∧
    (run initState 5 (.errorCb "popup_closed") 6
        { status := 500, files := none }).finalState.files = initState.files :=
  ⟨by decide, failed_run_preserves_files _ _ _ _ _ (by decide)⟩

/-- C8 (counterexample): a callback response whose scope was not
granted, and an absent callback response, each leave the promise of
`_requestAuthorization` pending forever — neither resolve nor reject is
called, so the awaitable does not settle for every outcome. -/
theorem scope_denied_promise_pending :
    (requestAuthorizationCallback 1000 initState
        (.callback (some { access_token := "T", expires_in := 3600,
                           scopeGranted := false }))).2 = .pending ∧
    (requestAuthorizationCallback 1000 initState (.callback none)).2 = .pending :=
  ⟨rfl, rfl⟩

/-- C8 (amended): complete settlement characterization of the promise
returned by `_requestAuthorization` — it is pending exactly on a
callback response failing the grant guard (no token or scope not
granted), rejected with `e` exactly on the error callback `e`, and
resolved with `tok` exactly on a grant whose token is `tok`. -/
theorem settlement_characterization (now : Nat) (s : AuthState)
    (out : ProviderOutcome) :
    ((requestAuthorizationCallback now s out).2 = .pending ↔
        ∃ response, out = .callback response ∧ grantOk response = false) ∧
    (∀ e, (requestAuthorizationCallback now s out).2 = .rejected e ↔
        out = .errorCb e) ∧
    (∀ tok, (requestAuthorizationCallback now s out).2 = .resolved tok ↔
        ∃ r, out = .callback (some r) ∧ grantOk (some r) = true ∧
          r.access_token = tok) := by
  cases out with
  | callback response =>
      cases response with
      | none => simp [requestAuthorizationCallback, grantOk]
      | some r =>
          by_cases hg : grantOk (some r) = true <;>
            simp [requestAuthorizationCallback, hg]
  | errorCb e =>
      by_cases he : e = "popup_closed" <;>
        simp [requestAuthorizationCallback, he]

/-- C9: a grant with non-empty token `T`, `expSec` seconds and scope
granted at time `t` stores `T`, sets the expiry to `t + expSec * 1000`,
clears the error and resolves with `T`; a fetch at time `t` over the
new state starts no new round-trip, while one at time
`t + expSec * 1000 + 1` does. -/
theorem granted_postcondition (st : AuthState) (t expSec authNow2 : Nat)
    (T : String) (hT : T ≠ "") (out2 : ProviderOutcome) (res : HttpResponse) :
    requestAuthorizationCallback t st
        (.callback (some { access_token := T, expires_in := expSec,
                           scopeGranted := true })) =
      ({ st with error := none, accessToken := some T,
                 tokenExpiresAt := t + expSec * 1000 }, .resolved T) ∧
    (run { st with error := none, accessToken := some T,
                   tokenExpiresAt := t + expSec * 1000 }
        t out2 authNow2 res).authStarted = false ∧
    (run { st with error := none, accessToken := some T,
                   tokenExpiresAt := t + expSec * 1000 }
        (t + expSec * 1000 + 1) out2 authNow2 res).authStarted = true := by
  refine ⟨?_, ?_, ?_⟩
  · simp [requestAuthorizationCallback, grantOk, hT]
  · have hx : ¬ (t + expSec * 1000 < t) := by omega
    simp [run, needsAuth, hx]
  · refine run_authStarted_of_needsAuth _ _ _ _ _ ?_
    simp [needsAuth]

/-- C9 (witness): the granted postcondition at token `"T"`, 3600
seconds, time 1000. -/
theorem granted_postcondition_witness :
    requestAuthorizationCallback 1000 initState
        (.callback (some { access_token := "T", expires_in := 3600,
                           scopeGranted := true })) =
      ({ initState with error := none, accessToken := some "T",
                        tokenExpiresAt := 1000 + 3600 * 1000 }, .resolved "T") :=
  (granted_postcondition initState 1000 3600 0 "T" (by decide) (.errorCb "x")
    { status := 200, files := some [] }).1

/-- C3 (counterexample): an authorization attempt over a state holding
an expired stored token that ends in a popup-closed denial leaves the
stored token and expiry exactly as they were — the stored credential is
not cleared. -/
theorem denied_keeps_credential :
    (requestAuthorizationCallback 10 staleState
        (.errorCb "popup_closed")).1.accessToken = some "OLD" ∧
    (requestAuthorizationCallback 10 staleState
        (.errorCb "popup_closed")).1.tokenExpiresAt = 5 :=
  ⟨rfl, rfl⟩

/-- C3 (amended): every denied authorization attempt leaves the stored
token and expiry unchanged (nothing is cleared), sets the UI error to
the reason-specific message, never resolves the promise, and the
triggering run never reaches the listing call. -/
theorem denied_postcondition (s : AuthState) (now authNow : Nat)
    (out : ProviderOutcome) (res : HttpResponse)
    (hd : deniedOutcome out = true) (hn : needsAuth s now = true) :
    (requestAuthorizationCallback authNow s out).1.accessToken = s.accessToken ∧
    (requestAuthorizationCallback authNow s out).1.tokenExpiresAt = s.tokenExpiresAt ∧
    (requestAuthorizationCallback authNow s out).1.error = some (deniedMessage out) ∧
    (∀ tok, (requestAuthorizationCallback authNow s out).2 ≠ .resolved tok) ∧
    (run s now out authNow res).listingCalled = false := by
  cases out with
  | callback response =>
      have hg : grantOk response = false := by
        simpa [deniedOutcome] using hd
      cases response with
      | none =>
          refine ⟨rfl, rfl, rfl, by simp [requestAuthorizationCallback], ?_⟩
          simp [run, hn, requestAuthorizationCallback]
      | some r =>
          refine ⟨?_, ?_, ?_, ?_, ?_⟩ <;>
            simp [run, hn, requestAuthorizationCallback, deniedMessage, hg]
  | errorCb e =>
      by_cases he : e = "popup_closed" <;>
        refine ⟨?_, ?_, ?_, ?_, ?_⟩ <;>
          simp [run, hn, requestAuthorizationCallback, deniedMessage, he]

/-- C3 (witness): the denied postcondition for an absent callback
response over the expired-token sample state. -/
theorem denied_postcondition_witness :
    deniedOutcome (.callback none) = true ∧
    (requestAuthorizationCallback 10 staleState (.callback none)).1.accessToken
        = staleState.accessToken ∧
    (run staleState 10 (.callback none) 10
        { status := 200, files := some [] }).listingCalled = false :=
  ⟨by decide,
   (denied_postcondition staleState 10 10 (.callback none)
      { status := 200, files := some [] } (by decide) (by decide)).1,
   (denied_postcondition staleState 10 10 (.callback none)
      { status := 200, files := some [] } (by decide) (by decide)).2.2.2.2⟩

/-- C2 (counterexample): at the instant `now = expiresAt` the code
still treats the stored token as valid — the run starts no provider
round-trip, contradicting equality-is-expired. -/
theorem expiry_boundary_no_roundtrip :
    cachedState.tokenExpiresAt = 100 ∧
    (run cachedState 100 (.errorCb "x") 0
        { status := 200, files := some [] }).authStarted = false :=
  ⟨rfl, rfl⟩

/-- C2 (amended): for every state with a stored token, a fetch reuses
the cached credential without a provider round-trip exactly when
`now ≤ expiresAt` — equality is treated as still valid, and a new
round-trip happens only when `expiresAt < now`. -/
theorem cached_reuse_iff (s : AuthState) (now authNow : Nat) (tok : String)
    (out : ProviderOutcome) (res : HttpResponse)
    (h : s.accessToken = some tok) :
    (run s now out authNow res).authStarted = false ↔ now ≤ s.tokenExpiresAt := by
  have hnone : s.accessToken.isNone = false := by rw [h]; rfl
  by_cases hle : now ≤ s.tokenExpiresAt
  · have hn : needsAuth s now = false := by
      simp [needsAuth, hnone]
      omega
    simp [run, hn, hle]
  · have hn : needsAuth s now = true := by
      simp [needsAuth, hnone]
      omega
    have ha := run_authStarted_of_needsAuth s now authNow out res hn
    simp [ha, hle]

/-- C2 (witness): the reuse boundary over the sample cached state: at
`now = 100 = expiresAt` no round-trip, at `now = 101` a round-trip. -/
theorem cached_reuse_iff_witness :
    ((run cachedState 100 (.errorCb "y") 0
        { status := 200, files := some [] }).authStarted = false ↔
      (100 : Nat) ≤ cachedState.tokenExpiresAt) ∧
    ((run cachedState 101 (.errorCb "y") 0
        { status := 200, files := some [] }).authStarted = false ↔
      (101 : Nat) ≤ cachedState.tokenExpiresAt) :=
  ⟨cached_reuse_iff cachedState 100 0 "T" (.errorCb "y")
      { status := 200, files := some [] } rfl,
   cached_reuse_iff cachedState 101 0 "T" (.errorCb "y")
      { status := 200, files := some [] } rfl⟩

/-- C1 (counterexample): a first fetch trigger on a fresh session opens
a popup and leaves it in flight; a second trigger arriving while it is
still in flight opens a second popup — two provider round-trips, not
one. -/
theorem double_trigger_two_popups :
    (step initConfig (.fetch 5)).inflightAuth = 1 ∧
    (step (step initConfig (.fetch 5)) (.fetch 6)).popups = 2 :=
  ⟨rfl, rfl⟩

/-- C1 (amended): there is no single-flight guard — a fetch trigger
arriving while an authorization round-trip is in flight, as long as the
state still needs authorization, starts one more provider round-trip of
its own. -/
theorem fetch_while_authorizing_opens_popup (c : Config) (t : Nat)
    (hin : 0 < c.inflightAuth) (hn : needsAuth c.state t = true) :
    (step c (.fetch t)).popups = c.popups + 1 ∧
    (step c (.fetch t)).inflightAuth = c.inflightAuth + 1 := by
  simp [step, hn]

/-- C1 (witness): the amended statement after one trigger on the fresh
configuration. -/
theorem fetch_while_authorizing_opens_popup_witness :
    0 < (step initConfig (.fetch 5)).inflightAuth ∧
    (step (step initConfig (.fetch 5)) (.fetch 6)).inflightAuth =
      (step initConfig (.fetch 5)).inflightAuth + 1 :=
  ⟨by decide,
   (fetch_while_authorizing_opens_popup (step initConfig (.fetch 5)) 6
      (by decide) (by decide)).2⟩

/-- C4 (counterexample): after a grant at time 10 for 3600 seconds, a
revoke round-trip clears the token but leaves `_tokenExpiresAt` at its
old value 3600010 instead of resetting it to the sentinel 0. -/
theorem revoke_leaves_expiry :
    (steps initConfig (grantedTrace ++ [.revoke, .revokeDone])).state.accessToken
        = none ∧
    (steps initConfig (grantedTrace ++ [.revoke, .revokeDone])).state.tokenExpiresAt
        = 3600010 :=
  ⟨rfl, rfl⟩

/-- C4 (amended): revoking with a stored token passes that token to the
provider revoke capability and changes no local state before the
completion signal; on completion the token is reset to null and the
file list cleared, but `_tokenExpiresAt` keeps its old value. -/
theorem revoke_postcondition (c : Config) (tok : String)
    (h : c.state.accessToken = some tok) :
    (step c .revoke).state = c.state ∧
    (step c .revoke).revokeCalls = c.revokeCalls ++ [tok] ∧
    (step (step c .revoke) .revokeDone).state.accessToken = none ∧
    (step (step c .revoke) .revokeDone).state.files = some [] ∧
    (step (step c .revoke) .revokeDone).state.tokenExpiresAt
        = c.state.tokenExpiresAt := by
  have h1 : step c .revoke =
      { c with inflightRevoke := c.inflightRevoke + 1,
               revokeCalls := c.revokeCalls ++ [tok] } := by
    simp [step, h]
  rw [h1]
  refine ⟨rfl, rfl, ?_, ?_, ?_⟩ <;> simp [step, revokeCallback]

/-- C4 (witness): the revoke postcondition after the sample granted
trace, whose stored token is `"T"`. -/
theorem revoke_postcondition_witness :
    (steps initConfig grantedTrace).state.accessToken = some "T" ∧
    (step (step (steps initConfig grantedTrace) .revoke) .revokeDone
      ).state.tokenExpiresAt = (steps initConfig grantedTrace).state.tokenExpiresAt :=
  ⟨by decide,
   (revoke_postcondition (steps initConfig grantedTrace) "T" (by decide)).2.2.2.2⟩

/-- C5 (counterexample): the pairing invariant fails at a reachable
state — after a grant followed by a revoke round-trip the token is
absent while `_tokenExpiresAt` still holds a non-sentinel timestamp, so
the two sides of the iff disagree. -/
theorem pairing_invariant_fails :
    ¬ ((steps initConfig (grantedTrace ++ [.revoke, .revokeDone])
          ).state.accessToken.isSome = true ↔
       (steps initConfig (grantedTrace ++ [.revoke, .revokeDone])
          ).state.tokenExpiresAt ≠ 0) := by
  decide

/-- C5 (amended): over every event sequence with positive clock
readings, the forward direction of the pairing holds as an invariant —
a present token implies a non-sentinel expiry — while the converse
direction is refuted by the revocation counterexample. -/
theorem pairing_forward_invariant (es : List Ev)
    (hpos : ∀ e ∈ es, evTimePos e = true) :
    tokenExpiryInv (steps initConfig es).state := by
  have general : ∀ (l : List Ev) (c : Config), (∀ e ∈ l, evTimePos e = true) →
      tokenExpiryInv c.state → tokenExpiryInv (steps c l).state := by
    intro l
    induction l with
    | nil => exact fun c _ hc => hc
    | cons e tl ih =>
        intro c hp hc
        exact ih (step c e) (fun x hx => hp x (List.mem_cons_of_mem _ hx))
          (step_preserves_tokenExpiryInv c e (hp e (List.mem_cons_self _ _)) hc)
  exact general es initConfig hpos (fun h => absurd h (by decide))

/-- C5 (witness): the forward invariant along the sample granted
trace. -/
theorem pairing_forward_invariant_witness :
    (∀ e ∈ grantedTrace, evTimePos e = true) ∧
    tokenExpiryInv (steps initConfig grantedTrace).state :=
  ⟨by decide, pairing_forward_invariant grantedTrace (by decide)⟩

end AuthDemo
